import Mathlib

/-!
Verification of the token-usage monitoring function
(src/src/functions/httpTrigger.ts).

The TypeScript source is shallowly embedded below.  Table Storage is
modelled as a keyed map from `rowKey` to an optional entity (the partition
key is the constant "DeploymentType" throughout the source).  External
effects are modelled as explicit parameters:
  * the Notifier (`sendMail` / poller status) is a status string supplied
    to the reconciler; the source compares it against "Succeeded";
  * store faults that the source's try/catch distinguishes are injected
    through a `Faults` record: a non-404 transient error on `getEntity`,
    and a concurrent create landing between the 404 and `createEntity`
    (which makes `createEntity` fail with a conflict);
  * `new Date().toISOString()` is a `now : String` parameter.
Exceptions are modelled by the explicit control flow of the source: the
inner catch handles only statusCode 404; every other throw reaches the
outer catch of `evaluateTokenUsageForAlert`, which logs and swallows it
(`RunResult.loggedError`).  The fan-out over deployments in `httpTrigger`
(`timeseries.map` + `Promise.all`) is modelled as a sequential fold; each
per-deployment task never rejects, so `Promise.all` always resolves.
-/

namespace TokenMonitor

/-- `const THRESHOLD = 1000` from the source. -/
def THRESHOLD : Int := 1000

/-- A Table Storage entity as the source builds it: partitionKey, rowKey,
`SumToken`, `ActionDone`, `LastUpdated`. -/
structure Entity where
  partitionKey : String
  rowKey : String
  SumToken : Int
  ActionDone : Bool
  LastUpdated : String
deriving Repr, DecidableEq

/-- The table, keyed by rowKey (the partition key is constant). -/
abbrev Store := String → Option Entity

/-- Write an entity at its rowKey (used by both `createEntity` after the
absence check and `updateEntity`). -/
def Store.put (s : Store) (e : Entity) : Store :=
  fun rk => if rk == e.rowKey then some e else s rk

/-- Store-level errors the source distinguishes. -/
inductive StoreErr where
  | conflict
  | transient
deriving Repr, DecidableEq

/-- `createEntity`: fails with a conflict when the key is taken. -/
def Store.createRow (s : Store) (e : Entity) : Except StoreErr Store :=
  if (s e.rowKey).isSome then .error .conflict else .ok (s.put e)

/-- Injected external behavior of the store during one reconciliation:
a non-404 failure of `getEntity`, and a record concurrently created by
another invocation between the 404 and this run's `createEntity`. -/
structure Faults where
  getTransient : Bool
  raceInsert : Option Entity
deriving Repr

/-- The fault-free store behavior. -/
def noFaults : Faults := ⟨false, none⟩

/-- Apply a concurrent create: it succeeds only if the key is free. -/
def Store.applyRace (s : Store) : Option Entity → Store
  | none => s
  | some r => if (s r.rowKey).isSome then s else s.put r

/-- Outcome of one `evaluateTokenUsageForAlert` run: either it returns
normally, or its outer catch logged an error (the promise resolves in
both cases). -/
inductive RunResult where
  | ok
  | loggedError (msg : String)
deriving Repr, DecidableEq

/-- Result of one reconciliation: final store, run outcome, and how many
times `sendMail` was invoked. -/
structure EvalOut where
  store : Store
  result : RunResult
  notifierCalls : Nat

/-- `shouldSendAlert(entity, sumToken)`:
`!entity?.ActionDone && sumToken > THRESHOLD` — on a null entity the
optional chaining yields undefined, so `!entity?.ActionDone` is true. -/
def shouldSendAlert (entity : Option Entity) (sumToken : Int) : Bool :=
  !(match entity with
    | none => false
    | some e => e.ActionDone) && decide (THRESHOLD < sumToken)

/-- The entity synthesized in the 404 branch of the source. -/
def freshEntity (rowKey : String) (sumToken : Int) (now : String) : Entity :=
  ⟨"DeploymentType", rowKey, sumToken, false, now⟩

/-- The tail of `evaluateTokenUsageForAlert`:
`if (sumToken > Number(entity.SumToken)) { entity.SumToken = sumToken;
entity.LastUpdated = ...; await tableClient.updateEntity(entity); }`. -/
def finalUsageUpdate (now : String) (store : Store) (entity : Entity)
    (sumToken : Int) (calls : Nat) : EvalOut :=
  if entity.SumToken < sumToken then
    ⟨store.put { entity with SumToken := sumToken, LastUpdated := now },
      .ok, calls⟩
  else
    ⟨store, .ok, calls⟩

/-- The body of `evaluateTokenUsageForAlert` after `entity` is bound
(read or freshly created): the `shouldSendAlert` branch — on a
non-"Succeeded" mail status the source throws, which the outer catch
turns into a logged error before the usage update can run — then the
final usage update. -/
def afterEntity (notifierStatus now : String) (store : Store)
    (entity : Entity) (sumToken : Int) : EvalOut :=
  if shouldSendAlert (some entity) sumToken then
    if notifierStatus == "Succeeded" then
      let e2 := { entity with ActionDone := true, LastUpdated := now }
      finalUsageUpdate now (store.put e2) e2 sumToken 1
    else
      ⟨store, .loggedError "Failed to send mail", 1⟩
  else
    finalUsageUpdate now store entity sumToken 0

/-- `evaluateTokenUsageForAlert(deploymentName, sumToken, month)`.
The inner try/catch handles only the 404 from `getEntity` by creating the
entity; a failure of that `createEntity` (conflict with a concurrent
create) is raised inside the catch block, so it propagates to the outer
catch, which logs it and returns — there is no re-read. -/
def evaluateTokenUsageForAlert (f : Faults) (notifierStatus now : String)
    (store : Store) (deploymentName : String) (sumToken : Int)
    (month : String) : EvalOut :=
  let rowKey := deploymentName ++ "-" ++ month
  if f.getTransient then
    ⟨store, .loggedError "TransientError", 0⟩
  else
    match store rowKey with
    | some entity => afterEntity notifierStatus now store entity sumToken
    | none =>
      let entity := freshEntity rowKey sumToken now
      let store1 := store.applyRace f.raceInsert
      match store1.createRow entity with
      | .error _ => ⟨store1, .loggedError "CreateConflict", 0⟩
      | .ok store2 => afterEntity notifierStatus now store2 entity sumToken

/-- One element of `response.data.value[0].timeseries`: a deployment name
(`metadatavalues[0].value`) and its per-period totals (`d.total`). -/
structure Deployment where
  name : String
  data : List Int
deriving Repr, DecidableEq

/-- `data.reduce((sum, d) => sum + d.total, 0)`. -/
def sumTokens (data : List Int) : Int := data.foldl (· + ·) 0

/-- The fan-out over `timeseries`: one reconciliation per deployment.
Each task resolves even on internal failure (outer catch), so all of them
run and `Promise.all` collects every outcome. -/
def processDeployments (faults : String → Faults)
    (notifier : String → String) (now month : String) :
    Store → List Deployment → Store × List RunResult
  | store, [] => (store, [])
  | store, d :: rest =>
    let out := evaluateTokenUsageForAlert (faults d.name) (notifier d.name)
      now store d.name (sumTokens d.data) month
    let r := processDeployments faults notifier now month out.store rest
    (r.1, out.result :: r.2)

/-- The HTTP response of `httpTrigger` plus the final store state and the
per-deployment run outcomes. -/
structure HttpOut where
  status : Nat
  body : String
  store : Store
  results : List RunResult

/-- `httpTrigger`: the metric-API call is modelled as an
`Except (Nat × String) (List Deployment)` input — on failure the catch
returns `error.response?.status || 500` with the error body; on success
every deployment is reconciled and the response is `200 "Success"`. -/
def httpTrigger (source : Except (Nat × String) (List Deployment))
    (notifier : String → String) (faults : String → Faults)
    (now month : String) (store : Store) : HttpOut :=
  match source with
  | .error (st, body) => ⟨st, body, store, []⟩
  | .ok deployments =>
    let fin := processDeployments faults notifier now month store deployments
    ⟨200, "Success", fin.1, fin.2⟩

/-! ## Basic store lemmas -/

theorem Store.put_same (s : Store) (e : Entity) (rk : String)
    (h : rk = e.rowKey) : s.put e rk = some e := by
  simp [Store.put, h]

theorem Store.put_other (s : Store) (e : Entity) (rk : String)
    (h : rk ≠ e.rowKey) : s.put e rk = s rk := by
  simp [Store.put]
  intro hc
  exact absurd hc h

/-! ## Characterization of one reconciliation, case by case -/

theorem evaluate_present_eq (f : Faults) (ns now dn month : String)
    (store : Store) (sumToken : Int) (e : Entity)
    (hf : f.getTransient = false)
    (hlook : store (dn ++ "-" ++ month) = some e) :
    evaluateTokenUsageForAlert f ns now store dn sumToken month =
      afterEntity ns now store e sumToken := by
  simp [evaluateTokenUsageForAlert, hf, hlook]

theorem evaluate_transient_eq (f : Faults) (ns now dn month : String)
    (store : Store) (sumToken : Int)
    (hf : f.getTransient = true) :
    evaluateTokenUsageForAlert f ns now store dn sumToken month =
      ⟨store, .loggedError "TransientError", 0⟩ := by
  simp [evaluateTokenUsageForAlert, hf]

theorem afterEntity_noalert_lt (ns now : String) (store : Store)
    (e : Entity) (n : Int)
    (hno : shouldSendAlert (some e) n = false) (hlt : e.SumToken < n) :
    afterEntity ns now store e n =
      ⟨store.put ⟨e.partitionKey, e.rowKey, n, e.ActionDone, now⟩, .ok, 0⟩ := by
  simp [afterEntity, hno, finalUsageUpdate, hlt]

theorem afterEntity_noalert_ge (ns now : String) (store : Store)
    (e : Entity) (n : Int)
    (hno : shouldSendAlert (some e) n = false) (hge : ¬e.SumToken < n) :
    afterEntity ns now store e n = ⟨store, .ok, 0⟩ := by
  simp [afterEntity, hno, finalUsageUpdate, hge]

theorem afterEntity_alert_fail (ns now : String) (store : Store)
    (e : Entity) (n : Int)
    (hal : shouldSendAlert (some e) n = true) (hns : ns ≠ "Succeeded") :
    afterEntity ns now store e n =
      ⟨store, .loggedError "Failed to send mail", 1⟩ := by
  simp [afterEntity, hal, hns]

theorem afterEntity_alert_success_lt (now : String) (store : Store)
    (e : Entity) (n : Int)
    (hal : shouldSendAlert (some e) n = true) (hlt : e.SumToken < n) :
    afterEntity "Succeeded" now store e n =
      ⟨(store.put ⟨e.partitionKey, e.rowKey, e.SumToken, true, now⟩).put
          ⟨e.partitionKey, e.rowKey, n, true, now⟩, .ok, 1⟩ := by
  simp [afterEntity, hal, finalUsageUpdate, hlt]

theorem afterEntity_alert_success_ge (now : String) (store : Store)
    (e : Entity) (n : Int)
    (hal : shouldSendAlert (some e) n = true) (hge : ¬e.SumToken < n) :
    afterEntity "Succeeded" now store e n =
      ⟨store.put ⟨e.partitionKey, e.rowKey, e.SumToken, true, now⟩, .ok, 1⟩ := by
  simp [afterEntity, hal, finalUsageUpdate, hge]

theorem evaluate_absent_eq (f : Faults) (ns now dn month : String)
    (store : Store) (sumToken : Int)
    (hf : f.getTransient = false)
    (habs : store (dn ++ "-" ++ month) = none)
    (hrace : f.raceInsert = none) :
    evaluateTokenUsageForAlert f ns now store dn sumToken month =
      afterEntity ns now
        (store.put (freshEntity (dn ++ "-" ++ month) sumToken now))
        (freshEntity (dn ++ "-" ++ month) sumToken now) sumToken := by
  simp [evaluateTokenUsageForAlert, hf, habs, hrace, Store.applyRace,
    Store.createRow, freshEntity]

/-! ## Claims -/

/-- Claim C1: `shouldSendAlert` returns true iff `newUsage > THRESHOLD`
and the record is absent or has `ActionDone = false`; consequently it is
false whenever `newUsage ≤ THRESHOLD` and false on every record with
`ActionDone = true`. -/
theorem shouldSendAlert_spec (entity : Option Entity) (sumToken : Int) :
    shouldSendAlert entity sumToken = true ↔
      (THRESHOLD < sumToken ∧
        (entity = none ∨ ∃ e, entity = some e ∧ e.ActionDone = false)) := by
  cases entity with
  | none => simp [shouldSendAlert]
  | some e => simp [shouldSendAlert]; tauto

/-- Instance of C1 at a concrete input. -/
theorem shouldSendAlert_spec_witness :
    shouldSendAlert none 1500 = true :=
  (shouldSendAlert_spec none 1500).mpr ⟨by decide, Or.inl rfl⟩

/-- Claim C9 (scenario A): no record, `newUsage = 1500`,
`THRESHOLD = 1000`, notifier succeeds: the record is created, the
notifier runs exactly once, and the persisted record has
`SumToken = 1500` and `ActionDone = true`. -/
theorem scenarioA_eval :
    (evaluateTokenUsageForAlert noFaults "Succeeded" "t1" (fun _ => none)
        "gptdev" 1500 "2024-10").store "gptdev-2024-10" =
      some ⟨"DeploymentType", "gptdev-2024-10", 1500, true, "t1"⟩ ∧
    (evaluateTokenUsageForAlert noFaults "Succeeded" "t1" (fun _ => none)
        "gptdev" 1500 "2024-10").notifierCalls = 1 ∧
    (evaluateTokenUsageForAlert noFaults "Succeeded" "t1" (fun _ => none)
        "gptdev" 1500 "2024-10").result = .ok := by
  refine ⟨?_, ?_, ?_⟩ <;> decide

/-- Counterexample to claim C2: existing record with `SumToken = 100`,
`ActionDone = false`; `newUsage = 1500 > 100` and the notifier fails.
The source throws before the usage update, so `SumToken` stays 100
instead of being updated to 1500. -/
theorem usageUpdate_skipped_on_notifier_failure_cex :
    (100 : Int) < 1500 ∧
    (evaluateTokenUsageForAlert noFaults "Failed" "t1"
        (fun rk => if rk == "gptdev-2024-10" then
          some ⟨"DeploymentType", "gptdev-2024-10", 100, false, "t0"⟩
          else none)
        "gptdev" 1500 "2024-10").store "gptdev-2024-10" =
      some ⟨"DeploymentType", "gptdev-2024-10", 100, false, "t0"⟩ ∧
    (evaluateTokenUsageForAlert noFaults "Failed" "t1"
        (fun rk => if rk == "gptdev-2024-10" then
          some ⟨"DeploymentType", "gptdev-2024-10", 100, false, "t0"⟩
          else none)
        "gptdev" 1500 "2024-10").result = .loggedError "Failed to send mail" := by
  refine ⟨by decide, ?_, ?_⟩ <;> decide

/-- Counterexample to claim C3: the store has no record, a concurrent
invocation creates one (with `ActionDone = false` and usage below the
new sample) between the 404 and this run's create, so `createEntity`
conflicts.  Had the run re-read and proceeded "as present", the policy
would have fired (first conjunct); instead the conflict escapes to the
outer catch: the notifier is never invoked, the raced record is left
untouched, and the run ends in a logged error. -/
theorem createConflict_no_reread_cex :
    shouldSendAlert
      (some ⟨"DeploymentType", "gptdev-2024-10", 0, false, "t0"⟩) 1500 = true ∧
    (evaluateTokenUsageForAlert
        ⟨false, some ⟨"DeploymentType", "gptdev-2024-10", 0, false, "t0"⟩⟩
        "Succeeded" "t1" (fun _ => none) "gptdev" 1500 "2024-10").notifierCalls = 0 ∧
    (evaluateTokenUsageForAlert
        ⟨false, some ⟨"DeploymentType", "gptdev-2024-10", 0, false, "t0"⟩⟩
        "Succeeded" "t1" (fun _ => none) "gptdev" 1500 "2024-10").store
      "gptdev-2024-10" =
      some ⟨"DeploymentType", "gptdev-2024-10", 0, false, "t0"⟩ ∧
    (evaluateTokenUsageForAlert
        ⟨false, some ⟨"DeploymentType", "gptdev-2024-10", 0, false, "t0"⟩⟩
        "Succeeded" "t1" (fun _ => none) "gptdev" 1500 "2024-10").result =
      .loggedError "CreateConflict" := by
  refine ⟨by decide, ?_, ?_, ?_⟩ <;> decide

/-- Counterexample to claim C5: existing record with `SumToken = 500`,
`ActionDone = false`; `newUsage = 1500` and the notifier fails.  After
the reconciliation the record's `SumToken` is 500, not
`max 500 1500 = 1500`. -/
theorem cumulativeUsage_not_max_on_failure_cex :
    (evaluateTokenUsageForAlert noFaults "FailedDelivery" "t1"
        (fun rk => if rk == "gpt4o-2024-11" then
          some ⟨"DeploymentType", "gpt4o-2024-11", 500, false, "t0"⟩
          else none)
        "gpt4o" 1500 "2024-11").store "gpt4o-2024-11" =
      some ⟨"DeploymentType", "gpt4o-2024-11", 500, false, "t0"⟩ ∧
    max (500 : Int) 1500 = 1500 := by
  exact ⟨by decide, by decide⟩

/-- Claim C10: on an existing record, when the alert policy is false and
the new sample does not exceed the stored usage, the reconciliation
performs no write at all: the store (every field of the record,
`LastUpdated` included) is returned unchanged, with no notifier call. -/
theorem no_write_when_no_change
    (store : Store) (e : Entity) (ns now dn month : String) (sumToken : Int)
    (hlook : store (dn ++ "-" ++ month) = some e)
    (hnoalert : shouldSendAlert (some e) sumToken = false)
    (hle : sumToken ≤ e.SumToken) :
    evaluateTokenUsageForAlert noFaults ns now store dn sumToken month =
      ⟨store, .ok, 0⟩ := by
  simp [evaluateTokenUsageForAlert, noFaults, hlook, afterEntity, hnoalert,
    finalUsageUpdate, not_lt.mpr hle]

/-- Instance of C10 at a concrete input. -/
theorem no_write_when_no_change_witness :
    evaluateTokenUsageForAlert noFaults "Succeeded" "t1"
      (fun rk => if rk == "gptdev-2024-10" then
        some ⟨"DeploymentType", "gptdev-2024-10", 500, false, "t0"⟩ else none)
      "gptdev" 400 "2024-10" =
      ⟨(fun rk => if rk == "gptdev-2024-10" then
          some ⟨"DeploymentType", "gptdev-2024-10", 500, false, "t0"⟩ else none),
        .ok, 0⟩ :=
  no_write_when_no_change _
    ⟨"DeploymentType", "gptdev-2024-10", 500, false, "t0"⟩ _ _ _ _ _
    (by decide) (by decide) (by decide)

/-- Claim C3 (amended): when the record is absent and a concurrent create
takes the key before this run's `createEntity`, the conflict is not
re-read: it propagates to the per-deployment catch, which logs it and
returns.  The notifier is never invoked, the raced record is left as the
concurrent writer created it, and the run ends as a logged error (the
invocation-level response is unaffected; see the C8 theorem). -/
theorem createConflict_aborts_run
    (store : Store) (r : Entity) (ns now dn month : String) (sumToken : Int)
    (habs : store (dn ++ "-" ++ month) = none)
    (hkey : r.rowKey = dn ++ "-" ++ month) :
    evaluateTokenUsageForAlert ⟨false, some r⟩ ns now store dn sumToken month =
      ⟨store.put r, .loggedError "CreateConflict", 0⟩ := by
  simp [evaluateTokenUsageForAlert, habs, Store.applyRace, hkey,
    Store.createRow, freshEntity, Store.put_same _ _ _ hkey.symm]

/-- Instance of the C3 amended theorem at a concrete input. -/
theorem createConflict_aborts_run_witness :
    evaluateTokenUsageForAlert
        ⟨false, some ⟨"DeploymentType", "gpt35-2024-12", 10, false, "t0"⟩⟩
        "Succeeded" "t1" (fun _ => none) "gpt35" 2000 "2024-12" =
      ⟨Store.put (fun _ => none)
          ⟨"DeploymentType", "gpt35-2024-12", 10, false, "t0"⟩,
        .loggedError "CreateConflict", 0⟩ :=
  createConflict_aborts_run _ _ _ _ _ _ _ rfl (by decide)

/-- Claim C7: no reconciliation ever resets `ActionDone`: whatever the
notifier status and injected store faults, an existing record with
`ActionDone = true` still has `ActionDone = true` afterwards, so the flag
goes false to true at most once over the record's lifetime. -/
theorem actionDone_never_reset
    (f : Faults) (ns now dn month : String) (store : Store) (sumToken : Int)
    (e : Entity)
    (hlook : store (dn ++ "-" ++ month) = some e)
    (hkey : e.rowKey = dn ++ "-" ++ month)
    (hdone : e.ActionDone = true) :
    ∃ e2, (evaluateTokenUsageForAlert f ns now store dn sumToken
        month).store (dn ++ "-" ++ month) = some e2 ∧
      e2.ActionDone = true := by
  by_cases hf : f.getTransient
  · exact ⟨e, by simp [evaluateTokenUsageForAlert, hf, hlook], hdone⟩
  · have hno : shouldSendAlert (some e) sumToken = false := by
      simp [shouldSendAlert, hdone]
    by_cases hlt : e.SumToken < sumToken
    · refine ⟨{ e with SumToken := sumToken, LastUpdated := now }, ?_, hdone⟩
      simp only [evaluateTokenUsageForAlert, hf, hlook, afterEntity, hno,
        finalUsageUpdate, if_pos hlt, Bool.false_eq_true, if_false]
      exact Store.put_same _ _ _ hkey.symm
    · refine ⟨e, ?_, hdone⟩
      simp [evaluateTokenUsageForAlert, hf, hlook, afterEntity, hno,
        finalUsageUpdate, hlt]

/-- Instance of C7 at a concrete input. -/
theorem actionDone_never_reset_witness :
    ∃ e2, (evaluateTokenUsageForAlert noFaults "Failed" "t1"
        (fun rk => if rk == "gptdev-2024-10" then
          some ⟨"DeploymentType", "gptdev-2024-10", 1500, true, "t0"⟩ else none)
        "gptdev" 1800 "2024-10").store ("gptdev" ++ "-" ++ "2024-10") =
        some e2 ∧ e2.ActionDone = true :=
  actionDone_never_reset noFaults _ _ _ _ _ _
    ⟨"DeploymentType", "gptdev-2024-10", 1500, true, "t0"⟩
    (by decide) (by decide) (by decide)

/-- Claim C2 (amended): the usage update runs whenever the reconciliation
is not aborted by a notifier failure — that is, when no alert is
attempted or the notifier succeeds.  (When the notifier fails, the thrown
error skips the usage update; see the C2 counterexample.) -/
theorem usageUpdate_when_run_completes
    (store : Store) (e : Entity) (ns now dn month : String) (sumToken : Int)
    (hlook : store (dn ++ "-" ++ month) = some e)
    (hkey : e.rowKey = dn ++ "-" ++ month)
    (hok : shouldSendAlert (some e) sumToken = false ∨ ns = "Succeeded")
    (hgt : e.SumToken < sumToken) :
    ∃ e2, (evaluateTokenUsageForAlert noFaults ns now store dn sumToken
        month).store (dn ++ "-" ++ month) = some e2 ∧
      e2.SumToken = sumToken := by
  rw [evaluate_present_eq _ _ _ _ _ _ _ _ rfl hlook]
  by_cases hal : shouldSendAlert (some e) sumToken = true
  · have hns : ns = "Succeeded" := hok.resolve_left (by simp [hal])
    subst hns
    rw [afterEntity_alert_success_lt _ _ _ _ hal hgt]
    exact ⟨_, Store.put_same _ _ _ hkey.symm, rfl⟩
  · have hno : shouldSendAlert (some e) sumToken = false := by
      simpa using hal
    rw [afterEntity_noalert_lt _ _ _ _ _ hno hgt]
    exact ⟨_, Store.put_same _ _ _ hkey.symm, rfl⟩

/-- Instance of the C2 amended theorem at a concrete input. -/
theorem usageUpdate_when_run_completes_witness :
    ∃ e2, (evaluateTokenUsageForAlert noFaults "Succeeded" "t1"
        (fun rk => if rk == "capacity-2025-01" then
          some ⟨"DeploymentType", "capacity-2025-01", 100, false, "t0"⟩
          else none)
        "capacity" 1500 "2025-01").store ("capacity" ++ "-" ++ "2025-01") =
        some e2 ∧ e2.SumToken = 1500 :=
  usageUpdate_when_run_completes _
    ⟨"DeploymentType", "capacity-2025-01", 100, false, "t0"⟩ _ _ _ _ _
    (by decide) (by decide) (Or.inr rfl) (by decide)

/-- Claim C4: `ActionDone` is persisted as true only when the notifier
reports "Succeeded".  On an alert attempt with any other status the run
ends as the logged error "Failed to send mail" with the store untouched
(so `ActionDone` is still false and the next invocation retries), and any
record persisted with `ActionDone = true` that was not already marked
requires a "Succeeded" notifier outcome. -/
theorem alertSent_only_on_notifier_success
    (store : Store) (e : Entity) (ns now dn month : String) (sumToken : Int)
    (hlook : store (dn ++ "-" ++ month) = some e)
    (hkey : e.rowKey = dn ++ "-" ++ month) :
    (shouldSendAlert (some e) sumToken = true → ns ≠ "Succeeded" →
      evaluateTokenUsageForAlert noFaults ns now store dn sumToken month =
        ⟨store, .loggedError "Failed to send mail", 1⟩) ∧
    (∀ e2, (evaluateTokenUsageForAlert noFaults ns now store dn sumToken
        month).store (dn ++ "-" ++ month) = some e2 →
      e2.ActionDone = true → e.ActionDone = true ∨ ns = "Succeeded") := by
  rw [evaluate_present_eq _ _ _ _ _ _ _ _ rfl hlook]
  constructor
  · intro hal hns
    exact afterEntity_alert_fail _ _ _ _ _ hal hns
  · intro e2 hl hdone
    by_cases hal : shouldSendAlert (some e) sumToken = true
    · by_cases hns : ns = "Succeeded"
      · exact Or.inr hns
      · rw [afterEntity_alert_fail _ _ _ _ _ hal hns] at hl
        have he : e = e2 := by
          have := hlook.symm.trans hl
          injection this
        exact Or.inl (by rw [he]; exact hdone)
    · have hno : shouldSendAlert (some e) sumToken = false := by
        simpa using hal
      by_cases hlt : e.SumToken < sumToken
      · rw [afterEntity_noalert_lt _ _ _ _ _ hno hlt] at hl
        have h2 : some (⟨e.partitionKey, e.rowKey, sumToken, e.ActionDone,
            now⟩ : Entity) = some e2 :=
          (Store.put_same store
            ⟨e.partitionKey, e.rowKey, sumToken, e.ActionDone, now⟩ _
            hkey.symm).symm.trans hl
        injection h2 with h
        refine Or.inl ?_
        rw [← h] at hdone
        simpa using hdone
      · rw [afterEntity_noalert_ge _ _ _ _ _ hno hlt] at hl
        have he : e = e2 := by
          have := hlook.symm.trans hl
          injection this
        exact Or.inl (by rw [he]; exact hdone)

/-- Instance of C4 at a concrete input: the notifier reports a failure
status and the reconciliation ends as a logged error with the store
untouched. -/
theorem alertSent_only_on_notifier_success_witness :
    shouldSendAlert
        (some ⟨"DeploymentType", "gpt4-2025-02", 200, false, "t0"⟩) 1500 =
      true ∧
    evaluateTokenUsageForAlert noFaults "FailedTransport" "t1"
        (fun rk => if rk == "gpt4-2025-02" then
          some ⟨"DeploymentType", "gpt4-2025-02", 200, false, "t0"⟩ else none)
        "gpt4" 1500 "2025-02" =
      ⟨(fun rk => if rk == "gpt4-2025-02" then
          some ⟨"DeploymentType", "gpt4-2025-02", 200, false, "t0"⟩ else none),
        .loggedError "Failed to send mail", 1⟩ :=
  ⟨by decide,
    (alertSent_only_on_notifier_success _
        ⟨"DeploymentType", "gpt4-2025-02", 200, false, "t0"⟩ _ _ _ _ _
        (by decide) (by decide)).1 (by decide) (by decide)⟩

/-- Claim C5 (amended): when the run is not aborted (no transient get
fault, and no alert attempt with a failing notifier), the record's
`SumToken` after reconciliation is `max` of the stored value and the new
sample; and in every run, whatever the faults and notifier outcome, the
stored `SumToken` never decreases. -/
theorem cumulativeUsage_max_monotone
    (f : Faults) (store : Store) (e : Entity) (ns now dn month : String)
    (sumToken : Int)
    (hlook : store (dn ++ "-" ++ month) = some e)
    (hkey : e.rowKey = dn ++ "-" ++ month) :
    (f.getTransient = false →
      (shouldSendAlert (some e) sumToken = false ∨ ns = "Succeeded") →
      ∃ e2, (evaluateTokenUsageForAlert f ns now store dn sumToken
          month).store (dn ++ "-" ++ month) = some e2 ∧
        e2.SumToken = max e.SumToken sumToken) ∧
    (∃ e2, (evaluateTokenUsageForAlert f ns now store dn sumToken
        month).store (dn ++ "-" ++ month) = some e2 ∧
      e.SumToken ≤ e2.SumToken) := by
  constructor
  · intro hf hok
    rw [evaluate_present_eq _ _ _ _ _ _ _ _ hf hlook]
    by_cases hal : shouldSendAlert (some e) sumToken = true
    · have hns : ns = "Succeeded" := hok.resolve_left (by simp [hal])
      subst hns
      by_cases hlt : e.SumToken < sumToken
      · rw [afterEntity_alert_success_lt _ _ _ _ hal hlt]
        exact ⟨_, Store.put_same _ _ _ hkey.symm,
          (max_eq_right hlt.le).symm⟩
      · rw [afterEntity_alert_success_ge _ _ _ _ hal hlt]
        exact ⟨_, Store.put_same _ _ _ hkey.symm,
          (max_eq_left (not_lt.mp hlt)).symm⟩
    · have hno : shouldSendAlert (some e) sumToken = false := by
        simpa using hal
      by_cases hlt : e.SumToken < sumToken
      · rw [afterEntity_noalert_lt _ _ _ _ _ hno hlt]
        exact ⟨_, Store.put_same _ _ _ hkey.symm,
          (max_eq_right hlt.le).symm⟩
      · rw [afterEntity_noalert_ge _ _ _ _ _ hno hlt]
        exact ⟨e, hlook, (max_eq_left (not_lt.mp hlt)).symm⟩
  · by_cases hf : f.getTransient = true
    · rw [evaluate_transient_eq _ _ _ _ _ _ _ hf]
      exact ⟨e, hlook, le_refl _⟩
    · have hf' : f.getTransient = false := by simpa using hf
      rw [evaluate_present_eq _ _ _ _ _ _ _ _ hf' hlook]
      by_cases hal : shouldSendAlert (some e) sumToken = true
      · by_cases hns : ns = "Succeeded"
        · subst hns
          by_cases hlt : e.SumToken < sumToken
          · rw [afterEntity_alert_success_lt _ _ _ _ hal hlt]
            exact ⟨_, Store.put_same _ _ _ hkey.symm, hlt.le⟩
          · rw [afterEntity_alert_success_ge _ _ _ _ hal hlt]
            exact ⟨_, Store.put_same _ _ _ hkey.symm, le_refl _⟩
        · rw [afterEntity_alert_fail _ _ _ _ _ hal hns]
          exact ⟨e, hlook, le_refl _⟩
      · have hno : shouldSendAlert (some e) sumToken = false := by
          simpa using hal
        by_cases hlt : e.SumToken < sumToken
        · rw [afterEntity_noalert_lt _ _ _ _ _ hno hlt]
          exact ⟨_, Store.put_same _ _ _ hkey.symm, hlt.le⟩
        · rw [afterEntity_noalert_ge _ _ _ _ _ hno hlt]
          exact ⟨e, hlook, le_refl _⟩

/-- Instance of the C5 amended theorem at a concrete input. -/
theorem cumulativeUsage_max_monotone_witness :
    (∃ e2, (evaluateTokenUsageForAlert noFaults "Succeeded" "t1"
        (fun rk => if rk == "ada-2025-03" then
          some ⟨"DeploymentType", "ada-2025-03", 500, false, "t0"⟩ else none)
        "ada" 1500 "2025-03").store ("ada" ++ "-" ++ "2025-03") = some e2 ∧
      e2.SumToken = max (500 : Int) 1500) :=
  (cumulativeUsage_max_monotone noFaults _
      ⟨"DeploymentType", "ada-2025-03", 500, false, "t0"⟩ _ _ _ _ _
      (by decide) (by decide)).1 rfl (Or.inr rfl)

/-- Claim C6: after a first reconciliation in which the alert fired and
the notifier succeeded, running the same reconciliation again with the
same `newUsage` makes no second notifier call, and `ActionDone` is still
true afterwards. -/
theorem reconcile_idempotent_after_alert
    (store : Store) (dn month now1 now2 ns2 : String) (sumToken : Int)
    (hwf : ∀ e, store (dn ++ "-" ++ month) = some e →
      e.rowKey = dn ++ "-" ++ month)
    (halert : shouldSendAlert (store (dn ++ "-" ++ month)) sumToken = true) :
    (evaluateTokenUsageForAlert noFaults "Succeeded" now1 store dn sumToken
        month).notifierCalls = 1 ∧
    (evaluateTokenUsageForAlert noFaults ns2 now2
        (evaluateTokenUsageForAlert noFaults "Succeeded" now1 store dn
          sumToken month).store dn sumToken month).notifierCalls = 0 ∧
    ∃ e2, (evaluateTokenUsageForAlert noFaults ns2 now2
        (evaluateTokenUsageForAlert noFaults "Succeeded" now1 store dn
          sumToken month).store dn sumToken month).store
        (dn ++ "-" ++ month) = some e2 ∧ e2.ActionDone = true := by
  have key : ∀ (S1 : Store) (efin : Entity),
      evaluateTokenUsageForAlert noFaults "Succeeded" now1 store dn sumToken
          month = ⟨S1, .ok, 1⟩ →
      S1 (dn ++ "-" ++ month) = some efin →
      efin.ActionDone = true →
      ¬efin.SumToken < sumToken →
      (evaluateTokenUsageForAlert noFaults "Succeeded" now1 store dn sumToken
          month).notifierCalls = 1 ∧
      (evaluateTokenUsageForAlert noFaults ns2 now2
          (evaluateTokenUsageForAlert noFaults "Succeeded" now1 store dn
            sumToken month).store dn sumToken month).notifierCalls = 0 ∧
      ∃ e2, (evaluateTokenUsageForAlert noFaults ns2 now2
          (evaluateTokenUsageForAlert noFaults "Succeeded" now1 store dn
            sumToken month).store dn sumToken month).store
          (dn ++ "-" ++ month) = some e2 ∧ e2.ActionDone = true := by
    intro S1 efin h1 h2 hdone hge
    have hno2 : shouldSendAlert (some efin) sumToken = false := by
      simp [shouldSendAlert, hdone]
    have hrun2 :=
      (evaluate_present_eq noFaults ns2 now2 dn month S1 sumToken efin rfl
        h2).trans (afterEntity_noalert_ge ns2 now2 S1 efin sumToken hno2 hge)
    refine ⟨by rw [h1], ?_, ⟨efin, ?_, hdone⟩⟩
    · rw [h1]
      show (evaluateTokenUsageForAlert noFaults ns2 now2 S1 dn sumToken
        month).notifierCalls = 0
      rw [hrun2]
    · rw [h1]
      show (evaluateTokenUsageForAlert noFaults ns2 now2 S1 dn sumToken
        month).store (dn ++ "-" ++ month) = some efin
      rw [hrun2]
      exact h2
  cases hcase : store (dn ++ "-" ++ month) with
  | none =>
    rw [hcase] at halert
    have hal1 : shouldSendAlert
        (some (freshEntity (dn ++ "-" ++ month) sumToken now1)) sumToken =
        true := by
      simpa [shouldSendAlert, freshEntity] using halert
    have h1 :=
      (evaluate_absent_eq noFaults "Succeeded" now1 dn month store sumToken
        rfl hcase rfl).trans
      (afterEntity_alert_success_ge now1 _
        (freshEntity (dn ++ "-" ++ month) sumToken now1) sumToken hal1
        (lt_irrefl _))
    exact key _ _ h1 (Store.put_same _ _ _ rfl) rfl (lt_irrefl _)
  | some e =>
    have hkey := hwf e hcase
    rw [hcase] at halert
    by_cases hlt : e.SumToken < sumToken
    · have h1 :=
        (evaluate_present_eq noFaults "Succeeded" now1 dn month store
          sumToken e rfl hcase).trans
        (afterEntity_alert_success_lt now1 store e sumToken halert hlt)
      exact key _ _ h1 (Store.put_same _ _ _ hkey.symm) rfl (lt_irrefl _)
    · have h1 :=
        (evaluate_present_eq noFaults "Succeeded" now1 dn month store
          sumToken e rfl hcase).trans
        (afterEntity_alert_success_ge now1 store e sumToken halert hlt)
      exact key _ _ h1 (Store.put_same _ _ _ hkey.symm) rfl hlt

/-- Instance of C6 at a concrete input (first observation of a
deployment above the threshold). -/
theorem reconcile_idempotent_after_alert_witness :
    (evaluateTokenUsageForAlert noFaults "Succeeded" "t1" (fun _ => none)
        "gptdev" 1500 "2024-10").notifierCalls = 1 ∧
    (evaluateTokenUsageForAlert noFaults "Succeeded" "t2"
        (evaluateTokenUsageForAlert noFaults "Succeeded" "t1" (fun _ => none)
          "gptdev" 1500 "2024-10").store "gptdev" 1500
        "2024-10").notifierCalls = 0 ∧
    ∃ e2, (evaluateTokenUsageForAlert noFaults "Succeeded" "t2"
        (evaluateTokenUsageForAlert noFaults "Succeeded" "t1" (fun _ => none)
          "gptdev" 1500 "2024-10").store "gptdev" 1500 "2024-10").store
        ("gptdev" ++ "-" ++ "2024-10") = some e2 ∧ e2.ActionDone = true :=
  reconcile_idempotent_after_alert (fun _ => none) "gptdev" "2024-10" "t1"
    "t2" "Succeeded" 1500 (fun _ he => Option.noConfusion he) (by decide)

/-- Length of the per-deployment outcome list: one outcome per
deployment, whatever each deployment's faults and notifier status. -/
theorem processDeployments_length (faults : String → Faults)
    (notifier : String → String) (now month : String) :
    ∀ (store : Store) (ds : List Deployment),
      (processDeployments faults notifier now month store ds).2.length =
        ds.length := by
  intro store ds
  induction ds generalizing store with
  | nil => rfl
  | cons d rest ih => simp [processDeployments, ih]

/-- Claim C8: whenever the metric source call succeeds, the invocation
returns 200 "Success" and produces one reconciliation outcome per
deployment, for every combination of per-deployment store faults and
notifier statuses — so per-deployment failures neither abort the other
deployments nor change the overall response. -/
theorem httpTrigger_isolated_failures (deployments : List Deployment)
    (notifier : String → String) (faults : String → Faults)
    (now month : String) (store : Store) :
    (httpTrigger (.ok deployments) notifier faults now month store).status =
      200 ∧
    (httpTrigger (.ok deployments) notifier faults now month store).body =
      "Success" ∧
    (httpTrigger (.ok deployments) notifier faults now month
        store).results.length = deployments.length := by
  refine ⟨rfl, rfl, ?_⟩
  simp [httpTrigger, processDeployments_length]

/-- Instance of C8 at a concrete input: both deployments suffer a
notifier failure, yet the invocation returns 200 "Success" with one
outcome per deployment. -/
theorem httpTrigger_isolated_failures_witness :
    (httpTrigger (.ok [⟨"a", [600, 900]⟩, ⟨"b", [1200]⟩])
        (fun _ => "FailedDelivery") (fun _ => noFaults) "t1" "2024-10"
        (fun _ => none)).status = 200 ∧
    (httpTrigger (.ok [⟨"a", [600, 900]⟩, ⟨"b", [1200]⟩])
        (fun _ => "FailedDelivery") (fun _ => noFaults) "t1" "2024-10"
        (fun _ => none)).body = "Success" ∧
    (httpTrigger (.ok [⟨"a", [600, 900]⟩, ⟨"b", [1200]⟩])
        (fun _ => "FailedDelivery") (fun _ => noFaults) "t1" "2024-10"
        (fun _ => none)).results.length =
      ([⟨"a", [600, 900]⟩, ⟨"b", [1200]⟩] : List Deployment).length :=
  httpTrigger_isolated_failures [⟨"a", [600, 900]⟩, ⟨"b", [1200]⟩]
    (fun _ => "FailedDelivery") (fun _ => noFaults) "t1" "2024-10"
    (fun _ => none)

end TokenMonitor
